import Mathlib

/-!
Shallow embedding of the chat application in `src/app/app.py` (a Gradio
front-end around an Ollama chat model, orchestrated with LangChain).

Modelling conventions:
* The module-level `stop_flag` (a `threading.Event`) and the per-instance
  `ChatBot.chat_history` Python list are threaded explicitly through an
  `AppState` record.
* The network call performed by the LangChain chain
  `chat_prompt | llm_engine | StrOutputParser()` is abstracted as a
  parameter of type `Backend`, mapping the engine configuration and the
  rendered message list to `Except.ok reply` (the call returned the string
  `reply`) or `Except.error e` (the call raised an exception `e`).
* The HTTP `requests.get` calls of the startup probe are abstracted as an
  oracle `Nat → Bool` giving the outcome of the k-th GET request to
  `/api/tags` (`true` = 2xx response, `false` = request exception), with an
  explicit counter of how many GET requests have been issued.
* Python tuples returned to Gradio become Lean tuples; where the arity of
  the returned tuple itself matters, the list of returned components is
  also transcribed (`chatReturnComponents`, `clearReturnComponents`).
-/

namespace DeepseekChat

/-- Role tag of a LangChain message (`SystemMessage`, `HumanMessage`,
`AIMessage`). -/
inductive Role where
  | system
  | human
  | ai
  deriving DecidableEq, Repr

/-- One role-tagged message, a Turn of the conversation. -/
structure Message where
  role : Role
  content : String
  deriving DecidableEq, Repr

/-- A UI-facing display-history entry list: pairs of (user text, reply text).
This is the `history` value Gradio passes to and receives from
`ChatBot.chat` (the display mirror). -/
abbrev DisplayMirror := List (String × String)

/-- Constant `OLLAMA_API` (line 21 of `app.py`). -/
def OLLAMA_API : String := "http://ollama:11434"

/-- Engine handle built by `get_llm_engine`: the configuration of a
`ChatOllama` client (lines 47-52).  The sampling temperature 0.3 is
represented exactly as the rational 3/10. -/
structure ChatOllama where
  model : String
  base_url : String
  temperature : ℚ
  deriving DecidableEq, Repr

/-- `get_llm_engine(model_name)` (lines 47-52): pure construction of the
engine configuration, no network call. -/
def get_llm_engine (model_name : String) : ChatOllama :=
  { model := model_name, base_url := OLLAMA_API, temperature := 3 / 10 }

/-- The constant `SYSTEM_TEMPLATE` string (lines 55-56), including the line
break and the trailing space before it, exactly as in the source. -/
def SYSTEM_TEMPLATE : String :=
  "You are an expert AI coding assistant. Provide concise, correct solutions \nwith strategic print statements for debugging. Always respond in English."

/-- The seed greeting text of `ChatBot.__init__` and `clear_chat`
(lines 65 and 117-119). -/
def greetingText : String := "Hi! I\x27m DeepSeek. How can I help you code today? 💻"

/-- Sentinel returned by the (unreachable) stopped branch (line 72). -/
def stoppedSentinel : String := "⚠️ Остановлено пользователем"

/-- Sentinel substituted when the chain returns a falsy (empty) string
(line 79, the `or` right operand). -/
def noAnswerSentinel : String := "⚠️ Ошибка: модель не вернула ответ."

/-- Sentinel substituted when the chain invocation raises (line 82). -/
def errorSentinel : String := "⚠️ Ошибка обработки запроса."

/-- Rendering of `chat_prompt` (lines 58-62): a system message holding
`SYSTEM_TEMPLATE`, then the `chat_history` placeholder contents, then one
human message holding the `input` template variable. -/
def chat_prompt_format (chat_history : List Message) (input : String) : List Message :=
  Message.mk Role.system SYSTEM_TEMPLATE :: (chat_history ++ [Message.mk Role.human input])

/-- Semantics of the composed chain `chat_prompt | llm_engine |
StrOutputParser()`: given the engine configuration and the rendered message
list, either a reply string or a raised exception. -/
abbrev Backend : Type := ChatOllama → List Message → Except String String

/-- The mutable state of the process: the `ChatBot.chat_history` list and
the module-level `stop_flag` event (line 24; set means `is_set()` is true). -/
structure AppState where
  chat_history : List Message
  stop_flag : Bool
  deriving DecidableEq, Repr

/-- `ChatBot.__init__` (lines 64-65) together with the initial (unset)
`threading.Event()` of line 24: the state of a freshly constructed
orchestrator. -/
def ChatBot.initial : AppState :=
  { chat_history := [Message.mk Role.ai greetingText], stop_flag := false }

/-- Result of `chain.invoke(...) or noAnswerSentinel` under the
`try`/`except` of lines 77-82: a raised exception becomes `errorSentinel`;
a returned falsy (empty) string becomes `noAnswerSentinel`; any other
returned string is kept. -/
def interpretReply : Except String String → String
  | Except.error _ => errorSentinel
  | Except.ok s => if s = "" then noAnswerSentinel else s

/-- `ChatBot.generate_ai_response(user_input, llm_engine)` (lines 67-87):
clears `stop_flag`, checks it (dead branch), appends the human turn, invokes
the chain on the now-updated history plus the template input slot, and
appends the assistant turn holding the real or sentinel reply. -/
def ChatBot.generate_ai_response (backend : Backend) (st : AppState)
    (user_input : String) (llm_engine : ChatOllama) : String × AppState :=
  let st := { st with stop_flag := false }
  if st.stop_flag then
    (stoppedSentinel, st)
  else
    let st := { st with chat_history := st.chat_history ++ [Message.mk Role.human user_input] }
    let response :=
      interpretReply (backend llm_engine (chat_prompt_format st.chat_history user_input))
    (response, { st with chat_history := st.chat_history ++ [Message.mk Role.ai response] })

/-- The message list `generate_ai_response` hands to the chain, as a function
of the pre-call `chat_history` and the user input: line 75 appends the human
turn first, then line 79 renders `chat_prompt` over the updated history and
the same input. -/
def sentRequest (chat_history : List Message) (input : String) : List Message :=
  chat_prompt_format (chat_history ++ [Message.mk Role.human input]) input

/-- `ChatBot.chat(message, model_choice, history)` (lines 89-107).  Returns
the Python triple `("", history, history)` (lines 92 and 107) together with
the successor state. -/
def ChatBot.chat (backend : Backend) (st : AppState) (message model_choice : String)
    (history : DisplayMirror) : (String × DisplayMirror × DisplayMirror) × AppState :=
  if message = "" then
    (("", history, history), st)
  else
    let llm_engine := get_llm_engine model_choice
    let r := ChatBot.generate_ai_response backend st message llm_engine
    let history2 := history ++ [(message, r.1)]
    (("", history2, history2), r.2)

/-- `ChatBot.stop_generation()` (lines 109-112): sets `stop_flag`; Python
returns `None`, modelled as `Unit`. -/
def ChatBot.stop_generation (st : AppState) : Unit × AppState :=
  ((), { st with stop_flag := true })

/-- `ChatBot.clear_chat()` (lines 114-120): resets `chat_history` to the
single greeting turn and returns the Python pair `([], [])` of line 120. -/
def ChatBot.clear_chat (st : AppState) : (DisplayMirror × DisplayMirror) × AppState :=
  (([], []), { st with chat_history := [Message.mk Role.ai greetingText] })

/-- A returned Python value at the Gradio boundary: either a string or a
display-history list. -/
inductive PyVal where
  | str : String → PyVal
  | mirror : DisplayMirror → PyVal
  deriving DecidableEq, Repr

/-- The components of the Python tuple returned by `ChatBot.chat`: both
return statements (lines 92 and 107) read `return "", history, history`, a
tuple of three components. -/
def chatReturnComponents (backend : Backend) (st : AppState)
    (message model_choice : String) (history : DisplayMirror) : List PyVal :=
  let r := (ChatBot.chat backend st message model_choice history).1
  [PyVal.str r.1, PyVal.mirror r.2.1, PyVal.mirror r.2.2]

/-- The components of the Python tuple returned by `ChatBot.clear_chat`:
line 120 reads `return [], []`, a tuple of two components. -/
def clearReturnComponents (st : AppState) : List PyVal :=
  let r := (ChatBot.clear_chat st).1
  [PyVal.mirror r.1, PyVal.mirror r.2]

/-- `test_ollama_connection(retries, delay)` (lines 27-38) over the GET
oracle: starting with `k` GET requests already issued, performs up to
`retries` sequential GETs, returning `(true, issued)` on the first success
and `(false, issued)` after exhausting the attempts.  `delay` only feeds
`time.sleep` and does not affect the result. -/
def test_ollama_connection (oracle : Nat → Bool) : Nat → Nat → Nat → Bool × Nat
  | k, 0, _ => (false, k)
  | k, r + 1, delay =>
    if oracle k then (true, k + 1)
    else test_ollama_connection oracle (k + 1) r delay

/-- The module-level startup sequence (lines 40-44): a guarded probe whose
failure aborts with `exit(1)` (first component `false`), followed — when the
guard passed — by a second probe whose result is discarded.  The second
component counts the GET requests issued to `/api/tags` before the UI is
served. -/
def startup (oracle : Nat → Bool) : Bool × Nat :=
  let r1 := test_ollama_connection oracle 0 3 3
  if r1.1 = false then
    (false, r1.2)
  else
    let r2 := test_ollama_connection oracle r1.2 3 3
    (true, r2.2)

/-- Iterated `chat` calls: each call supplies a (message, model) pair; the
display-mirror argument is irrelevant to the internal conversation and is
passed as `[]`. -/
def chatSeq (backend : Backend) : AppState → List (String × String) → AppState
  | st, [] => st
  | st, c :: rest => chatSeq backend (ChatBot.chat backend st c.1 c.2 []).2 rest

/-- The conversation turns contributed by a list of (message, reply)
exchanges: one human turn then one assistant turn per exchange. -/
def exchangeTurns : List (String × String) → List Message
  | [] => []
  | p :: rest => Message.mk Role.human p.1 :: Message.mk Role.ai p.2 :: exchangeTurns rest

/-! Helper lemmas shared by the claim theorems. -/

/-- Closed form of `generate_ai_response`: the stopped branch is dead (the
flag was just cleared), so the call always appends the human turn and the
assistant turn and returns the interpreted backend reply, leaving the flag
cleared. -/
theorem generate_ai_response_eq (backend : Backend) (hist : List Message) (b : Bool)
    (input : String) (eng : ChatOllama) :
    ChatBot.generate_ai_response backend ⟨hist, b⟩ input eng =
      (interpretReply (backend eng (sentRequest hist input)),
       ⟨hist ++ [Message.mk Role.human input,
                 Message.mk Role.ai (interpretReply (backend eng (sentRequest hist input)))],
        false⟩) := by
  simp [ChatBot.generate_ai_response, sentRequest]

/-- Closed form of `chat` for a non-empty message. -/
theorem chat_eq (backend : Backend) (st : AppState) (m mo : String) (h : DisplayMirror)
    (hm : m ≠ "") :
    ChatBot.chat backend st m mo h =
      (("", h ++ [(m, (ChatBot.generate_ai_response backend st m (get_llm_engine mo)).1)],
            h ++ [(m, (ChatBot.generate_ai_response backend st m (get_llm_engine mo)).1)]),
       (ChatBot.generate_ai_response backend st m (get_llm_engine mo)).2) := by
  simp [ChatBot.chat, hm]

/-- Effect of one non-empty `chat` call on the internal conversation log. -/
theorem chat_step_history (backend : Backend) (st : AppState) (m mo : String)
    (h : DisplayMirror) (hm : m ≠ "") :
    ((ChatBot.chat backend st m mo h).2).chat_history =
      st.chat_history ++
        [Message.mk Role.human m,
         Message.mk Role.ai
           ((ChatBot.generate_ai_response backend st m (get_llm_engine mo)).1)] := by
  cases st with
  | mk hist b =>
    rw [chat_eq backend _ m mo h hm]
    simp [generate_ai_response_eq]

/-! Claim C1. -/

/-- C1 counterexample: the claim says the new user input occurs exactly once
in the rendered request.  With a probing backend that replies with the number
of human turns holding the input, `generate_ai_response` at the fresh state
and input "hi" answers "2", not "1": the input occurs twice (once appended to
the conversation on line 75, once through the template input slot of
line 61). -/
theorem c1_counterexample :
    (ChatBot.generate_ai_response
        (fun _ msgs => Except.ok (toString (msgs.count (Message.mk Role.human "hi"))))
        ChatBot.initial "hi" (get_llm_engine "deepseek-r1:1.5b")).1 ≠ "1" := by
  decide

/-- C1 (amended): the request rendered and sent to the engine consists of,
in order, one system turn with the fixed instruction text, the prior
Conversation turns, and TWO human turns each holding the new user input —
one appended to the Conversation before rendering, one from the template
input slot — so a fresh input occurs exactly twice in the rendered sequence;
and `generate_ai_response` returns exactly the interpreted backend reply to
that request. -/
theorem c1_rendered_request (hist : List Message) (b : Bool) (input : String)
    (hnotin : Message.mk Role.human input ∉ hist) :
    sentRequest hist input =
        Message.mk Role.system SYSTEM_TEMPLATE ::
          (hist ++ [Message.mk Role.human input, Message.mk Role.human input]) ∧
    (sentRequest hist input).count (Message.mk Role.human input) = 2 ∧
    ∀ (backend : Backend) (eng : ChatOllama),
      (ChatBot.generate_ai_response backend ⟨hist, b⟩ input eng).1 =
        interpretReply (backend eng (sentRequest hist input)) := by
  refine ⟨by simp [sentRequest, chat_prompt_format], ?_, ?_⟩
  · have hz : hist.count (Message.mk Role.human input) = 0 :=
      List.count_eq_zero.mpr hnotin
    simp [sentRequest, chat_prompt_format, List.count_append, List.count_cons, hz]
  · intro backend eng
    rw [generate_ai_response_eq]

/-- C1 witness: instantiation of the amended claim at the seed conversation
and the input "hi". -/
theorem c1_witness :
    sentRequest [Message.mk Role.ai greetingText] "hi" =
        Message.mk Role.system SYSTEM_TEMPLATE ::
          ([Message.mk Role.ai greetingText] ++
            [Message.mk Role.human "hi", Message.mk Role.human "hi"]) ∧
    (sentRequest [Message.mk Role.ai greetingText] "hi").count (Message.mk Role.human "hi")
      = 2 ∧
    ∀ (backend : Backend) (eng : ChatOllama),
      (ChatBot.generate_ai_response backend ⟨[Message.mk Role.ai greetingText], false⟩
          "hi" eng).1 =
        interpretReply (backend eng (sentRequest [Message.mk Role.ai greetingText] "hi")) :=
  c1_rendered_request [Message.mk Role.ai greetingText] false "hi" (by decide)

/-! Claim C2. -/

/-- C2 counterexample: the claim says `chat` returns a pair.  Both return
statements of `chat` are the Python triple `"", history, history`, so at the
fresh state, message "hi", model "m", empty mirror and a backend replying
"ok", the list of returned components has three entries and differs from the
claimed two-component pair. -/
theorem c2_counterexample :
    chatReturnComponents (fun _ _ => Except.ok "ok") ChatBot.initial "hi" "m" []
      ≠ [PyVal.str "", PyVal.mirror [("hi", "ok")]] := by
  decide

/-- C2 (amended): for every non-empty message, model id and history mirror,
`chat` returns a TRIPLE whose first component is the empty string and whose
second and third components are both the input mirror extended by the single
pair (message, replyText). -/
theorem c2_chat_returns_triple (backend : Backend) (st : AppState) (m mo : String)
    (h : DisplayMirror) (hm : m ≠ "") :
    ∃ reply st2,
      ChatBot.chat backend st m mo h =
        (("", h ++ [(m, reply)], h ++ [(m, reply)]), st2) :=
  ⟨_, _, chat_eq backend st m mo h hm⟩

/-- C2 witness: instantiation of the amended claim at the fresh state,
message "hi", model "m", empty mirror and a backend replying "ok". -/
theorem c2_witness :
    ∃ reply st2,
      ChatBot.chat (fun _ _ => Except.ok "ok") ChatBot.initial "hi" "m" [] =
        (("", [("hi", reply)], [("hi", reply)]), st2) :=
  c2_chat_returns_triple (fun _ _ => Except.ok "ok") ChatBot.initial "hi" "m" []
    (by decide)

/-! Claim C3. -/

/-- Shape of the conversation log after a sequence of non-empty `chat`
calls: the starting log extended by one human turn and one assistant turn
per call, in call order. -/
theorem chatSeq_shape (backend : Backend) (calls : List (String × String)) :
    ∀ st : AppState, (∀ c ∈ calls, c.1 ≠ "") →
      ∃ replies : List String,
        replies.length = calls.length ∧
        (chatSeq backend st calls).chat_history =
          st.chat_history ++ exchangeTurns ((calls.map Prod.fst).zip replies) := by
  induction calls with
  | nil =>
    intro st _
    exact ⟨[], rfl, by simp [chatSeq, exchangeTurns]⟩
  | cons c rest ih =>
    intro st hne
    obtain ⟨replies, hlen, hshape⟩ :=
      ih (ChatBot.chat backend st c.1 c.2 []).2
        (fun d hd => hne d (List.mem_cons_of_mem c hd))
    refine ⟨(ChatBot.generate_ai_response backend st c.1 (get_llm_engine c.2)).1 :: replies,
      by simp [hlen], ?_⟩
    have hstep := chat_step_history backend st c.1 c.2 [] (hne c (List.mem_cons_self c rest))
    simp [chatSeq, hshape, hstep, exchangeTurns, List.append_assoc, List.zip]

/-- Each exchange contributes exactly two turns. -/
theorem exchangeTurns_length (l : List (String × String)) :
    (exchangeTurns l).length = 2 * l.length := by
  induction l with
  | nil => simp [exchangeTurns]
  | cons p rest ih => simp [exchangeTurns, ih]; omega

/-- C3: starting from a freshly constructed orchestrator, after N `chat`
calls with non-empty messages the internal conversation holds exactly
1 + 2N turns: the seed assistant greeting followed, per call, by one human
turn then one assistant turn. -/
theorem c3_conversation_length (backend : Backend) (calls : List (String × String))
    (hne : ∀ c ∈ calls, c.1 ≠ "") :
    ∃ replies : List String,
      replies.length = calls.length ∧
      (chatSeq backend ChatBot.initial calls).chat_history =
        Message.mk Role.ai greetingText ::
          exchangeTurns ((calls.map Prod.fst).zip replies) ∧
      (chatSeq backend ChatBot.initial calls).chat_history.length
        = 1 + 2 * calls.length := by
  obtain ⟨replies, hlen, hshape⟩ := chatSeq_shape backend calls ChatBot.initial hne
  refine ⟨replies, hlen, ?_, ?_⟩
  · simpa [ChatBot.initial] using hshape
  · rw [hshape]
    simp [ChatBot.initial, exchangeTurns_length, hlen]
    omega

/-- C3 witness: one call with message "hi" against a backend replying "ok"
yields a three-turn conversation. -/
theorem c3_witness :
    ∃ replies : List String,
      replies.length = [(("hi" : String), ("m" : String))].length ∧
      (chatSeq (fun _ _ => Except.ok "ok") ChatBot.initial [("hi", "m")]).chat_history =
        Message.mk Role.ai greetingText ::
          exchangeTurns (([(("hi" : String), ("m" : String))].map Prod.fst).zip replies) ∧
      (chatSeq (fun _ _ => Except.ok "ok") ChatBot.initial [("hi", "m")]).chat_history.length
        = 1 + 2 * [(("hi" : String), ("m" : String))].length :=
  c3_conversation_length (fun _ _ => Except.ok "ok") [("hi", "m")] (by decide)

/-! Claim C4. -/

/-- C4: when the engine invocation raises, `generate_ai_response` returns the
fixed error sentinel, appends both the human turn and the assistant sentinel
turn to the conversation, and (being a total function of the `Except`-valued
backend) propagates no exception to the caller. -/
theorem c4_engine_failure (backend : Backend) (hist : List Message) (b : Bool)
    (input : String) (eng : ChatOllama) (emsg : String)
    (hfail : backend eng (sentRequest hist input) = Except.error emsg) :
    ChatBot.generate_ai_response backend ⟨hist, b⟩ input eng =
      (errorSentinel,
       ⟨hist ++ [Message.mk Role.human input, Message.mk Role.ai errorSentinel],
        false⟩) := by
  rw [generate_ai_response_eq, hfail]
  rfl

/-- C4 witness: a backend that always raises, at the fresh state and input
"hi". -/
theorem c4_witness :
    ChatBot.generate_ai_response (fun _ _ => Except.error "boom") ChatBot.initial "hi"
        (get_llm_engine "deepseek-r1:1.5b") =
      (errorSentinel,
       ⟨[Message.mk Role.ai greetingText, Message.mk Role.human "hi",
         Message.mk Role.ai errorSentinel], false⟩) :=
  c4_engine_failure (fun _ _ => Except.error "boom") [Message.mk Role.ai greetingText]
    false "hi" (get_llm_engine "deepseek-r1:1.5b") "boom" rfl

/-! Claim C5. -/

/-- C5: when the engine invocation succeeds but yields the empty string,
`generate_ai_response` substitutes the fixed "no answer" sentinel, and that
sentinel is what is appended as the assistant turn. -/
theorem c5_empty_reply (backend : Backend) (hist : List Message) (b : Bool)
    (input : String) (eng : ChatOllama)
    (hempty : backend eng (sentRequest hist input) = Except.ok "") :
    ChatBot.generate_ai_response backend ⟨hist, b⟩ input eng =
      (noAnswerSentinel,
       ⟨hist ++ [Message.mk Role.human input, Message.mk Role.ai noAnswerSentinel],
        false⟩) := by
  rw [generate_ai_response_eq, hempty]
  rfl

/-- C5 witness: a backend that always returns the empty string, at the fresh
state and input "hi". -/
theorem c5_witness :
    ChatBot.generate_ai_response (fun _ _ => Except.ok "") ChatBot.initial "hi"
        (get_llm_engine "deepseek-r1:1.5b") =
      (noAnswerSentinel,
       ⟨[Message.mk Role.ai greetingText, Message.mk Role.human "hi",
         Message.mk Role.ai noAnswerSentinel], false⟩) :=
  c5_empty_reply (fun _ _ => Except.ok "") [Message.mk Role.ai greetingText]
    false "hi" (get_llm_engine "deepseek-r1:1.5b") rfl

/-! Claim C6. -/

/-- C6: for every entry value of the cancellation flag — in particular the
state reached immediately after `stop_generation` — a `chat` call with a
non-empty message behaves exactly as from the unstopped state: the reply is
the interpreted backend answer to the rendered request (so the engine is
contacted and the reply is real or a failure sentinel), the conversation
gains the human and assistant turns, and the "stopped by user" branch never
produces the result, because the flag is cleared before it is checked. -/
theorem c6_stop_is_ineffective (backend : Backend) (hist : List Message) (b : Bool)
    (msg mo : String) (mir : DisplayMirror) (hm : msg ≠ "") :
    ChatBot.chat backend ((ChatBot.stop_generation ⟨hist, b⟩).2) msg mo mir =
      ChatBot.chat backend ⟨hist, false⟩ msg mo mir ∧
    ∃ reply st2,
      reply = interpretReply (backend (get_llm_engine mo) (sentRequest hist msg)) ∧
      ChatBot.chat backend ((ChatBot.stop_generation ⟨hist, b⟩).2) msg mo mir =
        (("", mir ++ [(msg, reply)], mir ++ [(msg, reply)]), st2) ∧
      st2.chat_history = hist ++ [Message.mk Role.human msg, Message.mk Role.ai reply] := by
  have hstop : (ChatBot.stop_generation ⟨hist, b⟩).2 = (⟨hist, true⟩ : AppState) := rfl
  constructor
  · rw [hstop, chat_eq backend _ msg mo mir hm, chat_eq backend _ msg mo mir hm,
      generate_ai_response_eq, generate_ai_response_eq]
  · refine ⟨interpretReply (backend (get_llm_engine mo) (sentRequest hist msg)),
      ⟨hist ++ [Message.mk Role.human msg,
        Message.mk Role.ai
          (interpretReply (backend (get_llm_engine mo) (sentRequest hist msg)))],
        false⟩, rfl, ?_, rfl⟩
    rw [hstop, chat_eq backend _ msg mo mir hm, generate_ai_response_eq]

/-- C6 witness: `stop_generation` from the fresh state, then `chat` with
message "hi" against a backend replying "ok". -/
theorem c6_witness :
    ChatBot.chat (fun _ _ => Except.ok "ok")
        ((ChatBot.stop_generation ⟨[Message.mk Role.ai greetingText], false⟩).2)
        "hi" "m" [] =
      ChatBot.chat (fun _ _ => Except.ok "ok")
        ⟨[Message.mk Role.ai greetingText], false⟩ "hi" "m" [] ∧
    ∃ reply st2,
      reply = interpretReply ((fun _ _ => Except.ok "ok" : Backend) (get_llm_engine "m")
        (sentRequest [Message.mk Role.ai greetingText] "hi")) ∧
      ChatBot.chat (fun _ _ => Except.ok "ok")
          ((ChatBot.stop_generation ⟨[Message.mk Role.ai greetingText], false⟩).2)
          "hi" "m" [] =
        (("", [("hi", reply)], [("hi", reply)]), st2) ∧
      st2.chat_history =
        [Message.mk Role.ai greetingText] ++
          [Message.mk Role.human "hi", Message.mk Role.ai reply] :=
  c6_stop_is_ineffective (fun _ _ => Except.ok "ok") [Message.mk Role.ai greetingText]
    false "hi" "m" [] (by decide)

/-! Claim C7. -/

/-- C7 counterexample: the claim says `clear_chat` returns an empty display
mirror (one sequence).  Line 120 returns the Python pair `[], []`, so the
list of returned components has two entries and differs from a single empty
mirror. -/
theorem c7_counterexample :
    clearReturnComponents ChatBot.initial ≠ [PyVal.mirror []] := by
  decide

/-- C7 (amended): for every prior state, `clear_chat` resets the internal
conversation to exactly one turn — the fixed assistant greeting — leaves the
cancellation flag as it was, and returns a PAIR of two empty display
mirrors. -/
theorem c7_clear_resets (st : AppState) :
    ChatBot.clear_chat st =
      (([], []), ⟨[Message.mk Role.ai greetingText], st.stop_flag⟩) := rfl

/-! Claim C8. -/

/-- C8: a `chat` call whose message is empty is a no-op: it returns the
cleared-input signal with the input mirror unchanged (twice, per the
source's triple), leaves the state — conversation and flag — unchanged, and
its result does not depend on the backend, so no backend call is made. -/
theorem c8_empty_message_no_op (backend : Backend) (st : AppState) (mo : String)
    (h : DisplayMirror) :
    ChatBot.chat backend st "" mo h = (("", h, h), st) ∧
    ∀ backend2 : Backend,
      ChatBot.chat backend st "" mo h = ChatBot.chat backend2 st "" mo h := by
  exact ⟨rfl, fun backend2 => rfl⟩

/-! Claim C9. -/

/-- C9 counterexample: the claim says that when the backend is reachable the
health endpoint is consumed by exactly one probe invocation before the UI is
served.  With an always-reachable oracle, the startup sequence of lines
40-44 issues two GET requests to `/api/tags` (one per `test_ollama_connection`
call), not one. -/
theorem c9_counterexample : (startup (fun _ => true)).2 ≠ 1 := by
  decide

/-- C9 (amended): the startup probe runs as TWO rounds: the guarded probe of
line 40 and a second probe of line 44 whose result is discarded; when the
backend is reachable, the UI is served and the health endpoint at /api/tags
has received exactly two GET requests, one per probe invocation. -/
theorem c9_startup_probes_twice (oracle : Nat → Bool) (hreach : ∀ k, oracle k = true) :
    startup oracle = (true, 2) := by
  simp [startup, test_ollama_connection, hreach 0, hreach 1]

/-- C9 witness: the always-reachable oracle. -/
theorem c9_witness : startup (fun _ => true) = (true, 2) :=
  c9_startup_probes_twice (fun _ => true) (fun _ => rfl)

/-! Claim C10. -/

/-- C10: `stop_generation` modifies only the cancellation flag: the internal
conversation log is unchanged, the flag becomes set, and the Python `None`
return is modelled as `Unit`.  The display mirror is not among the
function's inputs or outputs, so it cannot be affected. -/
theorem c10_stop_frame (st : AppState) :
    ChatBot.stop_generation st = ((), ⟨st.chat_history, true⟩) := rfl

end DeepseekChat
